import Mathlib

/-!
Shallow embedding of `src/components/ThreeD/audio/WebSpeechSynthesis.ts`
(the `WebSpeechSynthesis` class), together with theorems about the
claims of the specification.

The class coordinates the browser speech-synthesis engine with a Tone.js
audio graph.  Its observable behaviour is a state machine over the private
fields (`synth`, `audioContext`, `mediaStreamDestination`, `analyser`,
`player`, `utterance`, `isGenerating`, `isCancelled`) plus the settlement
of the promise returned by `generateSpeech`.  We embed:
  * the session state as a structure (`SessionState`), with the external
    handles (`analyser`, `player`) held as `Option Nat` handle ids and the
    commands issued to the external engines recorded in the state
    (`speakCommands`, `synthCancels`, ...);
  * the promise of an in-flight call as a `Settlement` obeying JS promise
    semantics (only the first call to resolve/reject settles it);
  * the synchronous prefix of `generateSpeech` (lines 41-57 and the body of
    the `Promise` executor that runs immediately, lines 52-119) as a pure
    function; and every asynchronous callback the executor installs
    (`utterance.onend`, `utterance.onerror`, the `Tone.Player` `onload`,
    `synth.onvoiceschanged`, the `audioContext.resume().then` continuation)
    plus a caller-issued `stop()` as events of a step function on a `World`
    that carries the state, the settlement and the text captured by the
    closures.  Runs over arbitrary event lists model the single-threaded
    event loop delivering the callbacks in any order.
JS numbers are embedded as `ℚ` (the quantities involved are exact decimal
arithmetic: `text.length / 5`, clamps of rates).  A JS `TypeError` raised
by reading a property of `null` is embedded as the `NullDereference` error,
distinct from the `Error` objects the source constructs explicitly.
-/

namespace WebSpeech

/-- The errors the source can throw or reject with.  Each constructor
corresponds to one `new Error(...)` site of `WebSpeechSynthesis.ts`, except
`NullDereference`, which embeds the JS `TypeError` raised when a property
of `null` is read (sites where the source omits a null check). -/
inductive SpeechError where
  /-- Error message "Speech generation is not available on the server side." (line 42) -/
  | EnvironmentUnavailable
  /-- Error message "Speech generation already in progress" (line 46) -/
  | AlreadyInProgress
  /-- Error message "Speech synthesis components are not initialized." (line 54) -/
  | ComponentsUninitialized
  /-- Error message "Speech generation was cancelled" (line 62) -/
  | Cancelled
  /-- Error message "Speech synthesis failed: ${event.error}" (line 67) -/
  | SynthesisFailed (code : String)
  /-- Error message "Player or analyser not initialized." (line 82) -/
  | PlayerOrAnalyserMissing
  /-- Error message "Failed to set up audio routing for SpeechSynthesis." (line 116) -/
  | RoutingFailed
  /-- JS `TypeError`: reading a property of `null`; the payload names the
  null field being dereferenced. -/
  | NullDereference (field : String)
deriving DecidableEq, Repr

/-- A `SpeechSynthesisUtterance`: the constructor argument `text`, the
`voice` field (`none` until assigned; `some v` after `utterance.voice =
voices[0]`), and the `rate` field (set by `setPlaybackRate`). -/
structure Utterance where
  text : String
  voice : Option Nat
  rate : ℚ
deriving DecidableEq, Repr

/-- The private fields of a `WebSpeechSynthesis` instance, plus the
observable commands it has issued to the external speech engine and audio
graph.  External node objects are embedded as handle ids (`Option Nat`:
`none` = the JS field is `null`). -/
structure SessionState where
  /-- Whether `this.synth` is non-null. -/
  synthPresent : Bool
  /-- Whether `this.audioContext` is non-null. -/
  audioContextPresent : Bool
  /-- Whether `this.mediaStreamDestination` is non-null. -/
  mediaStreamDestPresent : Bool
  /-- Handle for `this.analyser` (`Tone.Analyser` handle id, or `null`). -/
  analyser : Option Nat
  /-- Handle for `this.player` (`Tone.Player` handle id, or `null`). -/
  player : Option Nat
  /-- Value of `this.player.playbackRate` (meaningful while `player` is present). -/
  playerRate : ℚ
  /-- Field `this.utterance`. -/
  utterance : Option Utterance
  /-- Field `this.isGenerating`. -/
  isGenerating : Bool
  /-- Field `this.isCancelled`. -/
  isCancelled : Bool
  /-- The waveform buffer `this.analyser.getValue()` would currently return. -/
  analyserBuffer : List ℚ
  /-- Fresh-handle counter for newly constructed external nodes. -/
  nextHandle : Nat
  /-- How many times `this.synth.cancel()` has been commanded. -/
  synthCancels : Nat
  /-- Each `this.synth.speak(this.utterance)` command, recorded with the
  utterance's `voice` field at the moment of the command. -/
  speakCommands : List (Option Nat)
  /-- The seek times forwarded to `this.player.seek(time)`. -/
  seekCommands : List ℚ
  /-- Whether `this.player.connect(this.analyser)` / `toDestination()` have run. -/
  playerConnected : Bool
  /-- Whether `this.player.stop()` has been commanded. -/
  playerStopped : Bool
  /-- Whether `this.player.dispose()` has been commanded. -/
  playerDisposed : Bool
  /-- Whether `this.analyser.dispose()` has been commanded. -/
  analyserDisposed : Bool
  /-- Whether `this.audioContext.close()` has been commanded. -/
  audioContextClosed : Bool
deriving DecidableEq, Repr

/-- The settlement status of the promise returned by `generateSpeech`.
`resolved` carries the resolution value `{ player, analyser, duration }`
(lines 92-96): the two handle ids and the estimated duration. -/
inductive Settlement where
  | pending
  | resolved (player analyser : Nat) (duration : ℚ)
  | rejected (e : SpeechError)
deriving DecidableEq, Repr

/-- JS promise semantics of `resolve(...)`: only settles a pending promise;
on an already-settled promise it is a no-op. -/
def resolveWith (p : Settlement) (player analyser : Nat) (duration : ℚ) :
    Settlement :=
  match p with
  | .pending => .resolved player analyser duration
  | s => s

/-- JS promise semantics of `reject(...)`: only settles a pending promise;
on an already-settled promise it is a no-op. -/
def rejectWith (p : Settlement) (e : SpeechError) : Settlement :=
  match p with
  | .pending => .rejected e
  | _ => p

/-- Whether the promise has been resolved (settled successfully). -/
def Settlement.isResolved : Settlement → Bool
  | .resolved _ _ _ => true
  | _ => false

/-- The state after the constructor (lines 17-30).  `env = true` embeds
`typeof window !== 'undefined'`: `initializeBrowserComponents` runs and
creates the synth reference, the audio context, the media-stream
destination and the `Tone.Analyser` (handle id 0).  With `env = false`
every field keeps its `null`/default initialiser. -/
def initialState (env : Bool) : SessionState :=
  { synthPresent := env
    audioContextPresent := env
    mediaStreamDestPresent := env
    analyser := if env then some 0 else none
    player := none
    playerRate := 1
    utterance := none
    isGenerating := false
    isCancelled := false
    analyserBuffer := []
    nextHandle := 1
    synthCancels := 0
    speakCommands := []
    seekCommands := []
    playerConnected := false
    playerStopped := false
    playerDisposed := false
    analyserDisposed := false
    audioContextClosed := false }

/-- The synchronous part of `generateSpeech(text)` (lines 36-119): the
guard throws (an async function's throw = the returned promise rejects
with the thrown error, before any state mutation), the flag updates, and
the body of the `Promise` executor, which runs synchronously inside the
`Promise` constructor: the components check (lines 53-56, rejecting and
returning early), the construction of the utterance (line 58) and of the
`Tone.Player` (lines 77-98, a fresh handle with `playbackRate: 1`).
The installed callbacks (`onend`, `onerror`, `onload`, `onvoiceschanged`,
the `resume().then` continuation) are modelled as `Event`s below.  The
`try`/`catch` around `audioContext.resume()` (lines 110-118) can only
catch a synchronous throw of `resume()` itself, which returns a promise
and does not throw synchronously, so the `RoutingFailed` rejection is
unreachable and nothing here produces it.  Returns the state after the
call together with the settlement status of the returned promise. -/
def generateSpeech (env : Bool) (text : String) (st : SessionState) :
    SessionState × Settlement :=
  if env = false then
    (st, .rejected .EnvironmentUnavailable)
  else if st.isGenerating then
    (st, .rejected .AlreadyInProgress)
  else
    let st1 := { st with isGenerating := true, isCancelled := false }
    if st1.synthPresent = false ∨ st1.audioContextPresent = false ∨
        st1.mediaStreamDestPresent = false then
      (st1, .rejected .ComponentsUninitialized)
    else
      let st2 := { st1 with
        utterance := some { text := text, voice := none, rate := 1 }
        player := some st1.nextHandle
        playerRate := 1
        nextHandle := st1.nextHandle + 1 }
      (st2, .pending)

/-- One in-flight `generateSpeech` call: the session state, the settlement
of the returned promise, and the `text` argument captured by the closures
the executor installed. -/
structure World where
  st : SessionState
  p : Settlement
  text : String
deriving DecidableEq, Repr

/-- The asynchronous events that can be delivered by the event loop while
a call is in flight, plus a caller-issued `stop()`. -/
inductive Event where
  /-- Event: `utterance.onend` fires. -/
  | utteranceEnd
  /-- Event: `utterance.onerror` fires with `event.error = code`. -/
  | utteranceError (code : String)
  /-- the `Tone.Player` `onload` callback fires. -/
  | playerLoad
  /-- Event: `synth.onvoiceschanged` fires; the platform reports `voices`. -/
  | voicesChanged (voices : List Nat)
  /-- the `audioContext.resume()` promise fulfils, running the `.then`
  continuation. -/
  | resumeThen
  /-- the caller invokes `stop()`. -/
  | stopCall
deriving DecidableEq, Repr

/-- Callback `utterance.onend` (lines 59-64): clears `isGenerating`; if the cancel
flag is set, rejects the pending promise with `Cancelled`. -/
def fireEnd (w : World) : World :=
  let st := { w.st with isGenerating := false }
  if st.isCancelled then
    { w with st := st, p := rejectWith w.p .Cancelled }
  else
    { w with st := st }

/-- Callback `utterance.onerror` (lines 65-68): clears `isGenerating` and rejects
the pending promise with `SynthesisFailed` carrying the engine's error
code. -/
def fireError (code : String) (w : World) : World :=
  { w with
    st := { w.st with isGenerating := false }
    p := rejectWith w.p (.SynthesisFailed code) }

/-- The `Tone.Player` `onload` callback (lines 80-97): if the player or the
analyser field is null, rejects; otherwise connects the player to the
analyser and to the destination and resolves the pending promise with the
two handles and the estimated duration `text.length / 5` (line 90). -/
def fireLoad (w : World) : World :=
  match w.st.player, w.st.analyser with
  | some pl, some an =>
    { w with
      st := { w.st with playerConnected := true }
      p := resolveWith w.p pl an ((w.text.length : ℚ) / 5) }
  | _, _ => { w with p := rejectWith w.p .PlayerOrAnalyserMissing }

/-- Handler `synth.onvoiceschanged` (lines 101-107): if the reported voice list is
non-empty, assigns the first voice to the utterance and commands
`synth.speak(utterance)`; otherwise does nothing.  The handler is only
installed after the executor created the utterance, so the utterance is
present whenever it fires. -/
def fireVoicesChanged (voices : List Nat) (w : World) : World :=
  match voices with
  | [] => w
  | v :: _ =>
    match w.st.utterance with
    | some u =>
      { w with st := { w.st with
          utterance := some { u with voice := some v }
          speakCommands := w.st.speakCommands ++ [some v] } }
    | none => w

/-- The `audioContext.resume().then` continuation (lines 111-113): commands
`synth.speak(utterance)` with the utterance exactly as it currently is —
no voice is selected or assigned on this path. -/
def fireResumeThen (w : World) : World :=
  match w.st.utterance with
  | some u =>
    { w with st := { w.st with speakCommands := w.st.speakCommands ++ [u.voice] } }
  | none => w

/-- Operation `stop()` (lines 147-155): if generating, sets the cancel flag and then
commands `this.synth.cancel()` — without a null check, so a null `synth`
raises a `TypeError` there (after the flag was already set) and the rest
of the body is skipped; then, if a player is present, commands
`this.player.stop()`.  Returns the state after the call and the error
thrown, if any. -/
def stop (st : SessionState) : SessionState × Option SpeechError :=
  if st.isGenerating then
    let st1 := { st with isCancelled := true }
    if st1.synthPresent then
      let st2 := { st1 with synthCancels := st1.synthCancels + 1 }
      (if st2.player.isSome then { st2 with playerStopped := true } else st2,
       none)
    else
      (st1, some (.NullDereference "synth"))
  else
    (if st.player.isSome then { st with playerStopped := true } else st, none)

/-- Operation `seek(time)` (lines 140-142): optional chaining — forwards to the
player when present, no-op otherwise. -/
def seek (time : ℚ) (st : SessionState) : SessionState :=
  if st.player.isSome then
    { st with seekCommands := st.seekCommands ++ [time] }
  else st

/-- Operation `getWaveformData()` (lines 160-162): `this.analyser.getValue()` with no
null check — when the analyser is null this raises a JS `TypeError`, not
one of the source's own `Error`s; otherwise it returns the analyser's
current waveform buffer. -/
def getWaveformData (st : SessionState) : Except SpeechError (List ℚ) :=
  match st.analyser with
  | none => .error (.NullDereference "analyser")
  | some _ => .ok st.analyserBuffer

/-- Operation `setPitch(pitch)` (lines 170-174): when a player is present, sets its
playback rate to `Math.max(0.5, Math.min(2, 1 + pitch / 12))`; otherwise
does nothing. -/
def setPitch (pitch : ℚ) (st : SessionState) : SessionState :=
  if st.player.isSome then
    { st with playerRate := max (1/2 : ℚ) (min 2 (1 + pitch / 12)) }
  else st

/-- Operation `setPlaybackRate(rate)` (lines 180-187): clamps to `[0.1, 10]` and
applies it independently to the player's playback rate (if present) and to
the utterance's `rate` field (if present). -/
def setPlaybackRate (rate : ℚ) (st : SessionState) : SessionState :=
  let st1 :=
    if st.player.isSome then
      { st with playerRate := max (1/10 : ℚ) (min 10 rate) }
    else st
  match st1.utterance with
  | some u =>
    { st1 with utterance := some { u with rate := max (1/10 : ℚ) (min 10 rate) } }
  | none => st1

/-- Operation `dispose()` (lines 192-199): calls `stop()`, disposes the player under
a null guard, then calls `this.analyser.dispose()` and
`this.audioContext.close()` with no guard — each raises a `TypeError` when
the field is null.  (`Tone.Analyser.dispose` tolerates repetition, and a
repeated `audioContext.close()` returns a rejected promise rather than
throwing synchronously, so on present handles neither call throws.)
Returns the state after the call and the error thrown, if any. -/
def dispose (st : SessionState) : SessionState × Option SpeechError :=
  match stop st with
  | (st1, some e) => (st1, some e)
  | (st1, none) =>
    let st2 :=
      if st1.player.isSome then { st1 with playerDisposed := true } else st1
    match st2.analyser with
    | none => (st2, some (.NullDereference "analyser"))
    | some _ =>
      let st3 := { st2 with analyserDisposed := true }
      if st3.audioContextPresent then
        ({ st3 with audioContextClosed := true }, none)
      else
        (st3, some (.NullDereference "audioContext"))

/-- Deliver one event to an in-flight call's world.  A `stop()` that throws
(null synth) still leaves its partial state mutation behind; the throw
never settles the promise. -/
def stepEvent : Event → World → World
  | .utteranceEnd, w => fireEnd w
  | .utteranceError code, w => fireError code w
  | .playerLoad, w => fireLoad w
  | .voicesChanged voices, w => fireVoicesChanged voices w
  | .resumeThen, w => fireResumeThen w
  | .stopCall, w => { w with st := (stop w.st).1 }

/-- Deliver a list of events in order. -/
def run (w : World) : List Event → World
  | [] => w
  | e :: es => run (stepEvent e w) es

/-- The operations of the instance's public surface, used to express that a
family of states is closed under every method call. -/
inductive ApiOp where
  | genSpeech (env : Bool) (text : String)
  | stopOp
  | seekOp (time : ℚ)
  | setPitchOp (pitch : ℚ)
  | setRateOp (rate : ℚ)
  | waveformOp
  | disposeOp
deriving DecidableEq, Repr

/-- The session-state effect of one public method call (`getWaveformData`
reads but does not mutate; for the fallible operations only the state
component matters here). -/
def applyApi : ApiOp → SessionState → SessionState
  | .genSpeech env text, st => (generateSpeech env text st).1
  | .stopOp, st => (stop st).1
  | .seekOp time, st => seek time st
  | .setPitchOp pitch, st => setPitch pitch st
  | .setRateOp rate, st => setPlaybackRate rate st
  | .waveformOp, st => st
  | .disposeOp, st => (dispose st).1

/-- Apply a sequence of public method calls. -/
def applyApis : List ApiOp → SessionState → SessionState
  | [], st => st
  | op :: ops, st => applyApis ops (applyApi op st)

/-- The clamp function of the specification: `clamp(x, lo, hi)` confines
`x` to the interval `[lo, hi]`. -/
def clamp (x lo hi : ℚ) : ℚ := min hi (max lo x)

/-- Resolution invariant of an in-flight call: whenever the promise is
resolved, its value is the session's player handle, the session's analyser
handle, and the estimated duration `text.length / 5` of the captured
text. -/
def resOk (w : World) : Prop :=
  ∀ pl an : Nat, ∀ d : ℚ, w.p = Settlement.resolved pl an d →
    w.st.player = some pl ∧ w.st.analyser = some an ∧
    d = (w.text.length : ℚ) / 5

/-- A browser-side instance right after a `generateSpeech` call on the
text `hi` ran its synchronous part: the pair of session state and pending
settlement. -/
def browserStart : SessionState × Settlement :=
  generateSpeech true "hi" (initialState true)

/-- The world of the in-flight call of `browserStart`. -/
def wGen : World := { st := browserStart.1, p := browserStart.2, text := "hi" }

/-- A 50-character text (digits `0`-`9` five times over). -/
def text50 : String := "01234567890123456789012345678901234567890123456789"

/-- A browser-side instance right after `generateSpeech(text50)` ran its
synchronous part. -/
def start50 : SessionState × Settlement :=
  generateSpeech true text50 (initialState true)

/-- The world of the in-flight call of `start50`. -/
def w50 : World := { st := start50.1, p := start50.2, text := text50 }

/-- A world whose promise has already resolved. -/
def wSettled : World :=
  { st := browserStart.1, p := Settlement.resolved 1 0 1, text := "hi" }

/-- Rejecting an already-settled promise is a no-op. -/
theorem rejectWith_of_ne_pending {p : Settlement} (e : SpeechError)
    (h : p ≠ Settlement.pending) : rejectWith p e = p := by
  cases p with
  | pending => exact absurd rfl h
  | resolved pl an d => rfl
  | rejected e0 => rfl

/-- Resolving an already-settled promise is a no-op. -/
theorem resolveWith_of_ne_pending {p : Settlement} (pl an : Nat) (d : ℚ)
    (h : p ≠ Settlement.pending) : resolveWith p pl an d = p := by
  cases p with
  | pending => exact absurd rfl h
  | resolved pl0 an0 d0 => rfl
  | rejected e0 => rfl

/-- Rejecting never changes whether the promise is resolved. -/
theorem rejectWith_isResolved (p : Settlement) (e : SpeechError) :
    (rejectWith p e).isResolved = p.isResolved := by
  cases p <;> rfl

/-- If a rejection left the promise resolved, it was already resolved with
that very value. -/
theorem rejectWith_eq_resolved {p : Settlement} {e : SpeechError}
    {pl an : Nat} {d : ℚ}
    (h : rejectWith p e = Settlement.resolved pl an d) :
    p = Settlement.resolved pl an d := by
  cases p with
  | pending => exact absurd h (by simp [rejectWith])
  | resolved pl0 an0 d0 => exact h
  | rejected e0 => exact absurd h (by simp [rejectWith])

/-- If a resolution left the promise resolved with some value, then either
the promise already held that value, or it was pending and the resolution
installed exactly the arguments passed. -/
theorem resolveWith_eq_resolved {p : Settlement} {pl0 an0 : Nat} {d0 : ℚ}
    {pl an : Nat} {d : ℚ}
    (h : resolveWith p pl0 an0 d0 = Settlement.resolved pl an d) :
    p = Settlement.resolved pl an d ∨
      (p = Settlement.pending ∧ pl = pl0 ∧ an = an0 ∧ d = d0) := by
  cases p with
  | pending =>
    simp only [resolveWith] at h
    obtain ⟨h1, h2, h3⟩ := Settlement.resolved.inj h
    exact Or.inr ⟨rfl, h1.symm, h2.symm, h3.symm⟩
  | resolved pl1 an1 d1 => exact Or.inl h
  | rejected e0 => exact absurd h (by simp [resolveWith])

/-- An event delivery never settles an already-settled promise again. -/
theorem stepEvent_settled (e : Event) (w : World)
    (h : w.p ≠ Settlement.pending) : (stepEvent e w).p = w.p := by
  cases e with
  | utteranceEnd =>
    simp only [stepEvent, fireEnd]
    split
    · exact rejectWith_of_ne_pending _ h
    · rfl
  | utteranceError code =>
    simpa only [stepEvent, fireError] using rejectWith_of_ne_pending _ h
  | playerLoad =>
    simp only [stepEvent, fireLoad]
    split
    · exact resolveWith_of_ne_pending _ _ _ h
    · exact rejectWith_of_ne_pending _ h
  | voicesChanged voices =>
    simp only [stepEvent, fireVoicesChanged]
    split
    · rfl
    · split <;> rfl
  | resumeThen =>
    simp only [stepEvent, fireResumeThen]
    split <;> rfl
  | stopCall => rfl

/-- Once settled, the promise's value survives any further events. -/
theorem run_settled (w : World) (es : List Event)
    (h : w.p ≠ Settlement.pending) : (run w es).p = w.p := by
  induction es generalizing w with
  | nil => rfl
  | cons e es ih =>
    have h1 := stepEvent_settled e w h
    calc (run (stepEvent e w) es).p
        = (stepEvent e w).p := ih (stepEvent e w) (h1 ▸ h)
      _ = w.p := h1

/-- No event other than the player's load callback can take the promise to
the resolved status. -/
theorem stepEvent_not_resolved (e : Event) (w : World)
    (h : (w.p).isResolved = false) (he : e ≠ Event.playerLoad) :
    ((stepEvent e w).p).isResolved = false := by
  cases e with
  | utteranceEnd =>
    simp only [stepEvent, fireEnd]
    split
    · simpa [rejectWith_isResolved] using h
    · exact h
  | utteranceError code =>
    simpa only [stepEvent, fireError, rejectWith_isResolved] using h
  | playerLoad => exact absurd rfl he
  | voicesChanged voices =>
    simp only [stepEvent, fireVoicesChanged]
    split
    · exact h
    · split <;> exact h
  | resumeThen =>
    simp only [stepEvent, fireResumeThen]
    split <;> exact h
  | stopCall => exact h

/-- A run containing no player-load event cannot resolve the promise. -/
theorem run_not_resolved (w : World) (es : List Event)
    (h : (w.p).isResolved = false) (hes : Event.playerLoad ∉ es) :
    ((run w es).p).isResolved = false := by
  induction es generalizing w with
  | nil => exact h
  | cons e es ih =>
    have he : e ≠ Event.playerLoad := by
      intro hh
      exact hes (hh ▸ List.mem_cons_self e es)
    have hes2 : Event.playerLoad ∉ es := fun hh => hes (List.mem_cons_of_mem e hh)
    exact ih (stepEvent e w) (stepEvent_not_resolved e w h he) hes2

/-- Fields `stop()` never writes: the handles, the presence flags,
`isGenerating`, `playerDisposed` and the utterance. -/
theorem stop_fields (st : SessionState) :
    (stop st).1.player = st.player ∧ (stop st).1.analyser = st.analyser ∧
    (stop st).1.isGenerating = st.isGenerating ∧
    (stop st).1.synthPresent = st.synthPresent ∧
    (stop st).1.audioContextPresent = st.audioContextPresent ∧
    (stop st).1.playerDisposed = st.playerDisposed ∧
    (stop st).1.utterance = st.utterance := by
  by_cases hg : st.isGenerating
  · by_cases hs : st.synthPresent
    · by_cases hp : st.player.isSome
      · simp [stop, hg, hs, hp]
      · simp [stop, hg, hs, hp]
    · simp [stop, hg, hs]
  · by_cases hp : st.player.isSome
    · simp [stop, hg, hp]
    · simp [stop, hg, hp]

/-- Event deliveries never change the session's player handle, analyser
handle, or the captured text of the in-flight call. -/
theorem stepEvent_preserves (e : Event) (w : World) :
    (stepEvent e w).st.player = w.st.player ∧
    (stepEvent e w).st.analyser = w.st.analyser ∧
    (stepEvent e w).text = w.text := by
  cases e with
  | utteranceEnd =>
    simp only [stepEvent, fireEnd]
    split <;> exact ⟨rfl, rfl, rfl⟩
  | utteranceError code => exact ⟨rfl, rfl, rfl⟩
  | playerLoad =>
    simp only [stepEvent, fireLoad]
    split <;> exact ⟨rfl, rfl, rfl⟩
  | voicesChanged voices =>
    simp only [stepEvent, fireVoicesChanged]
    split
    · exact ⟨rfl, rfl, rfl⟩
    · split <;> exact ⟨rfl, rfl, rfl⟩
  | resumeThen =>
    simp only [stepEvent, fireResumeThen]
    split <;> exact ⟨rfl, rfl, rfl⟩
  | stopCall =>
    exact ⟨(stop_fields w.st).1, (stop_fields w.st).2.1, rfl⟩

/-- Static data of a run: player handle, analyser handle and captured text
are those of the starting world. -/
theorem run_preserves (w : World) (es : List Event) :
    (run w es).st.player = w.st.player ∧
    (run w es).st.analyser = w.st.analyser ∧
    (run w es).text = w.text := by
  induction es generalizing w with
  | nil => exact ⟨rfl, rfl, rfl⟩
  | cons e es ih =>
    obtain ⟨h1, h2, h3⟩ := ih (stepEvent e w)
    obtain ⟨g1, g2, g3⟩ := stepEvent_preserves e w
    exact ⟨h1.trans g1, h2.trans g2, h3.trans g3⟩

/-- One event delivery preserves the resolution invariant. -/
theorem stepEvent_resOk (e : Event) (w : World) (h : resOk w) :
    resOk (stepEvent e w) := by
  intro pl an d hp
  obtain ⟨g1, g2, g3⟩ := stepEvent_preserves e w
  rw [g1, g2, g3]
  cases e with
  | utteranceEnd =>
    simp only [stepEvent, fireEnd] at hp
    split at hp
    · exact h pl an d (rejectWith_eq_resolved hp)
    · exact h pl an d hp
  | utteranceError code =>
    simp only [stepEvent, fireError] at hp
    exact h pl an d (rejectWith_eq_resolved hp)
  | playerLoad =>
    simp only [stepEvent, fireLoad] at hp
    split at hp
    · rename_i pl0 an0 hpl ha
      rcases resolveWith_eq_resolved hp with h1 | ⟨h1, h2, h3, h4⟩
      · exact h pl an d h1
      · subst h2; subst h3; subst h4
        exact ⟨hpl, ha, rfl⟩
    · exact h pl an d (rejectWith_eq_resolved hp)
  | voicesChanged voices =>
    simp only [stepEvent, fireVoicesChanged] at hp
    split at hp
    · exact h pl an d hp
    · split at hp <;> exact h pl an d hp
  | resumeThen =>
    simp only [stepEvent, fireResumeThen] at hp
    split at hp <;> exact h pl an d hp
  | stopCall => exact h pl an d hp

/-- A whole run preserves the resolution invariant. -/
theorem run_resOk (w : World) (es : List Event) (h : resOk w) :
    resOk (run w es) := by
  induction es generalizing w with
  | nil => exact h
  | cons e es ih => exact ih (stepEvent e w) (stepEvent_resOk e w h)

/-- A pending promise satisfies the resolution invariant vacuously. -/
theorem resOk_of_pending (w : World) (h : w.p = Settlement.pending) :
    resOk w := by
  intro pl an d hp
  rw [h] at hp
  exact absurd hp (by simp)

/-- Reentrancy guard of `generateSpeech` (lines 45-47): a call while
`isGenerating` is set throws before any mutation. -/
theorem generateSpeech_generating (t : String) (st : SessionState)
    (h : st.isGenerating = true) :
    generateSpeech true t st =
      (st, Settlement.rejected SpeechError.AlreadyInProgress) := by
  simp [generateSpeech, h]

/-- C1: while a `generateSpeech` call is in flight (`isGenerating` is
true), a second `generateSpeech(t)` call rejects immediately with the
already-in-progress error, leaves the session state unchanged, and the
first call's world (state, settlement and captured text) evolves under any
subsequent events exactly as if the second call had never happened. -/
theorem second_call_rejects_already_in_progress (t : String) (w : World)
    (h : w.st.isGenerating = true) :
    generateSpeech true t w.st =
      (w.st, Settlement.rejected SpeechError.AlreadyInProgress) ∧
    ∀ es : List Event,
      run { st := (generateSpeech true t w.st).1, p := w.p, text := w.text } es
        = run w es := by
  have h1 := generateSpeech_generating t w.st h
  refine ⟨h1, fun es => ?_⟩
  rw [h1]

/-- Witness for C1: on the freshly started call's world, a second call
rejects with the already-in-progress error and leaves the world's
evolution under the end callback unchanged. -/
theorem second_call_rejects_witness :
    generateSpeech true "again" wGen.st =
      (wGen.st, Settlement.rejected SpeechError.AlreadyInProgress) ∧
    run { st := (generateSpeech true "again" wGen.st).1, p := wGen.p,
          text := wGen.text } [Event.utteranceEnd]
      = run wGen [Event.utteranceEnd] := by
  have h := second_call_rejects_already_in_progress "again" wGen rfl
  exact ⟨h.1, h.2 [Event.utteranceEnd]⟩

/-- C2: the outer promise can be resolved only by the player's load
callback — a run containing no load event leaves it unresolved no matter
how the utterance's end/error callbacks and `stop()` interleave — and once
the promise is settled no further event delivery can change its value
(settlement is single-shot). -/
theorem only_onload_resolves :
    (∀ (w : World) (es : List Event), (w.p).isResolved = false →
      Event.playerLoad ∉ es → ((run w es).p).isResolved = false) ∧
    (∀ (w : World) (e : Event), w.p ≠ Settlement.pending →
      (stepEvent e w).p = w.p) := by
  exact ⟨fun w es h hes => run_not_resolved w es h hes,
         fun w e h => stepEvent_settled e w h⟩

/-- Witness for C2: on a freshly started call, delivering the utterance
end and error callbacks and a stop leaves the promise unresolved; and an
event delivered to an already-resolved world leaves its value unchanged. -/
theorem only_onload_resolves_witness :
    ((run wGen [Event.utteranceEnd, Event.utteranceError "err",
        Event.stopCall]).p).isResolved = false ∧
    (stepEvent Event.utteranceEnd wSettled).p = wSettled.p := by
  exact ⟨only_onload_resolves.1 wGen _ rfl (by decide),
         only_onload_resolves.2 wSettled Event.utteranceEnd (by decide)⟩

/-- C3: calling `stop()` while generating sets the cancel flag, commands
the engine's cancel, and does not itself settle the pending promise; when
the utterance's end callback then fires, the pending promise rejects with
the cancellation error; and a promise already resolved via the node-ready
path keeps its resolved value through any further events (only the first
settlement wins). -/
theorem stop_then_end_rejects_cancelled (w : World)
    (h1 : w.st.isGenerating = true) (h2 : w.st.synthPresent = true)
    (h3 : w.p = Settlement.pending) :
    (stepEvent Event.stopCall w).st.isCancelled = true ∧
    (stepEvent Event.stopCall w).st.synthCancels = w.st.synthCancels + 1 ∧
    (stepEvent Event.stopCall w).p = Settlement.pending ∧
    (stepEvent Event.utteranceEnd (stepEvent Event.stopCall w)).p
      = Settlement.rejected SpeechError.Cancelled ∧
    ∀ (w2 : World) (pl an : Nat) (d : ℚ) (es : List Event),
      w2.p = Settlement.resolved pl an d →
      (run w2 es).p = Settlement.resolved pl an d := by
  have hstop : (stepEvent Event.stopCall w).st.isCancelled = true ∧
      (stepEvent Event.stopCall w).st.synthCancels = w.st.synthCancels + 1 := by
    show ((stop w.st).1).isCancelled = true ∧
      ((stop w.st).1).synthCancels = w.st.synthCancels + 1
    by_cases hp : w.st.player.isSome <;> simp [stop, h1, h2, hp]
  refine ⟨hstop.1, hstop.2, h3, ?_, ?_⟩
  · show (fireEnd (stepEvent Event.stopCall w)).p
      = Settlement.rejected SpeechError.Cancelled
    simp only [fireEnd]
    split
    · rename_i hc
      have hpend : (stepEvent Event.stopCall w).p = Settlement.pending := h3
      rw [hpend]
      rfl
    · rename_i hc
      exact absurd hstop.1 (by simpa using hc)
  · intro w2 pl an d es hres
    rw [run_settled w2 es (by rw [hres]; simp)]
    exact hres

/-- Witness for C3: on the freshly started call, `stop()` sets the cancel
flag and the subsequent end callback rejects with the cancellation
error. -/
theorem stop_then_end_rejects_cancelled_witness :
    (stepEvent Event.stopCall wGen).st.isCancelled = true ∧
    (stepEvent Event.utteranceEnd (stepEvent Event.stopCall wGen)).p
      = Settlement.rejected SpeechError.Cancelled := by
  have h := stop_then_end_rejects_cancelled wGen rfl rfl rfl
  exact ⟨h.1, h.2.2.2.1⟩

/-- Counterexample to C4: on a freshly started call, delivering `stop()`
and then the player's load callback (before the utterance's end event)
resolves the promise while `isGenerating` is still true and `isCancelled`
is true — the claimed postcondition does not hold at the moment of
resolution. -/
theorem resolved_while_generating_cex :
    ((run wGen [Event.stopCall, Event.playerLoad]).p).isResolved = true ∧
    (run wGen [Event.stopCall, Event.playerLoad]).st.isGenerating = true ∧
    (run wGen [Event.stopCall, Event.playerLoad]).st.isCancelled = true := by
  exact ⟨rfl, rfl, rfl⟩

/-- C4 (amended): when the promise of a `generateSpeech` call resolves
successfully, the caller receives the session's playable handle, its
analysis handle, and the estimated duration of the captured text; but
`isGenerating` and `isCancelled` need not be false at that moment — the
load event can precede the utterance's end event (see the counterexample),
and only the utterance's end/error callbacks reset `isGenerating`. -/
theorem resolution_delivers_handles (w : World) (es : List Event)
    (h0 : w.p = Settlement.pending) (pl an : Nat) (d : ℚ)
    (h : (run w es).p = Settlement.resolved pl an d) :
    w.st.player = some pl ∧ w.st.analyser = some an ∧
    d = (w.text.length : ℚ) / 5 := by
  have hres := run_resOk w es (resOk_of_pending w h0) pl an d h
  obtain ⟨g1, g2, g3⟩ := run_preserves w es
  exact ⟨g1 ▸ hres.1, g2 ▸ hres.2.1, by rw [← g3]; exact hres.2.2⟩

/-- Witness for C4 (amended): the freshly started call resolved by a load
event hands back the session's player handle 1 and analyser handle 0. -/
theorem resolution_delivers_handles_witness :
    wGen.st.player = some 1 ∧ wGen.st.analyser = some 0 := by
  have h := resolution_delivers_handles wGen [Event.playerLoad] rfl 1 0
    (((2 : ℚ)) / 5) rfl
  exact ⟨h.1, h.2.1⟩

/-- Counterexample to C5: on an instance whose browser components were
never created, the analysis node is absent, yet `getWaveformData()` does
not fail with the components-uninitialized error — it raises the JS
null-dereference `TypeError` instead. -/
theorem getWaveformData_null_cex :
    (initialState false).analyser = none ∧
    getWaveformData (initialState false)
      ≠ Except.error SpeechError.ComponentsUninitialized ∧
    getWaveformData (initialState false)
      = Except.error (SpeechError.NullDereference "analyser") := by
  refine ⟨rfl, ?_, rfl⟩
  intro h
  simp [getWaveformData, initialState] at h

/-- C5 (amended): whenever the analysis node is absent, `getWaveformData()`
fails by dereferencing the null analyser (a JS `TypeError`, not the
components-uninitialized error); whenever the analysis node is present, it
returns that node's current waveform buffer snapshot. -/
theorem getWaveformData_behavior (st : SessionState) :
    (st.analyser = none →
      getWaveformData st
        = Except.error (SpeechError.NullDereference "analyser")) ∧
    (∀ a : Nat, st.analyser = some a →
      getWaveformData st = Except.ok st.analyserBuffer) := by
  constructor
  · intro h
    simp [getWaveformData, h]
  · intro a h
    simp [getWaveformData, h]

/-- Witness for C5 (amended): the never-initialized instance raises the
null dereference; the browser-initialized instance returns its (silent)
waveform buffer. -/
theorem getWaveformData_behavior_witness :
    getWaveformData (initialState false)
      = Except.error (SpeechError.NullDereference "analyser") ∧
    getWaveformData (initialState true)
      = Except.ok (initialState true).analyserBuffer := by
  exact ⟨(getWaveformData_behavior (initialState false)).1 rfl,
         (getWaveformData_behavior (initialState true)).2 0 rfl⟩

/-- Counterexample to C6: on a freshly started call, the synchronous
resume path commands the utterance to begin speaking with no voice ever
selected or assigned — the speak command is recorded with voice `none` and
the utterance's voice field is still unset. -/
theorem resume_path_speaks_without_voice_cex :
    (run wGen [Event.resumeThen]).st.speakCommands = [none] ∧
    (run wGen [Event.resumeThen]).st.utterance
      = some { text := "hi", voice := none, rate := 1 } := by
  exact ⟨rfl, rfl⟩

/-- C6 (amended): the first available voice is selected and assigned to
the utterance, and speech then commanded, only on the asynchronous
voices-changed path (and only when the reported voice list is non-empty;
an empty report does nothing); the synchronous resume path commands the
utterance to begin speaking without selecting or assigning any voice. -/
theorem voice_selection_only_async (w : World) (u : Utterance)
    (hu : w.st.utterance = some u) :
    (∀ (v : Nat) (vs : List Nat),
      (stepEvent (Event.voicesChanged (v :: vs)) w).st.utterance
          = some { u with voice := some v } ∧
      (stepEvent (Event.voicesChanged (v :: vs)) w).st.speakCommands
          = w.st.speakCommands ++ [some v]) ∧
    stepEvent (Event.voicesChanged []) w = w ∧
    (stepEvent Event.resumeThen w).st.speakCommands
        = w.st.speakCommands ++ [u.voice] ∧
    (stepEvent Event.resumeThen w).st.utterance = some u := by
  refine ⟨fun v vs => ?_, rfl, ?_, ?_⟩
  · constructor
    · show (fireVoicesChanged (v :: vs) w).st.utterance
        = some { u with voice := some v }
      simp [fireVoicesChanged, hu]
    · show (fireVoicesChanged (v :: vs) w).st.speakCommands
        = w.st.speakCommands ++ [some v]
      simp [fireVoicesChanged, hu]
  · show (fireResumeThen w).st.speakCommands = w.st.speakCommands ++ [u.voice]
    simp [fireResumeThen, hu]
  · show (fireResumeThen w).st.utterance = some u
    simp [fireResumeThen, hu]

/-- Witness for C6 (amended): on the freshly started call, a voices-changed
report `[7, 9]` assigns voice 7 and speaks with it, while the resume path
speaks with no voice. -/
theorem voice_selection_only_async_witness :
    (stepEvent (Event.voicesChanged [7, 9]) wGen).st.utterance
      = some { text := "hi", voice := some 7, rate := 1 } ∧
    (stepEvent Event.resumeThen wGen).st.speakCommands = [none] := by
  have h := voice_selection_only_async wGen
    { text := "hi", voice := none, rate := 1 } rfl
  exact ⟨(h.1 7 [9]).1, h.2.2.1⟩

/-- C7: the duration delivered by a successful resolution of a
`generateSpeech` call on text of length `n` is exactly `n / 5`,
independent of anything else that happens during the run (the value is
a pure function of the captured text, not of actual playback length). -/
theorem duration_is_length_div_five (w : World) (es : List Event)
    (h0 : w.p = Settlement.pending) (pl an : Nat) (d : ℚ)
    (h : (run w es).p = Settlement.resolved pl an d) :
    d = (w.text.length : ℚ) / 5 := by
  have hres := run_resOk w es (resOk_of_pending w h0) pl an d h
  obtain ⟨g1, g2, g3⟩ := run_preserves w es
  rw [← g3]
  exact hres.2.2

/-- Witness for C7: a call on the 50-character text resolves with duration
10 = 50 / 5 (and the theorem applied at that resolution confirms the
formula). -/
theorem duration_is_length_div_five_witness :
    (run w50 [Event.playerLoad]).p = Settlement.resolved 1 0 10 ∧
    (10 : ℚ) = ((w50.text.length : ℚ)) / 5 := by
  have hlen : ((text50.length : ℚ)) / 5 = 10 := by
    show ((50 : ℕ) : ℚ) / 5 = 10
    norm_num
  have hres : (run w50 [Event.playerLoad]).p = Settlement.resolved 1 0 10 := by
    have : (run w50 [Event.playerLoad]).p
        = Settlement.resolved 1 0 (((text50.length : ℚ)) / 5) := rfl
    rw [this, hlen]
  exact ⟨hres,
    duration_is_length_div_five w50 [Event.playerLoad] rfl 1 0 10 hres⟩

/-- C8: when a playable node is present, `setPitch(p)` sets exactly its
playback rate, to `clamp(1 + p / 12, 0.5, 2.0)` — every other field of the
session is untouched (the equality is a record update of the playback rate
only) — and the literals hold: pitch 0 gives rate 1, pitch 24 clamps to 2,
pitch -24 clamps to 0.5. -/
theorem setPitch_clamps (pitch : ℚ) (st : SessionState)
    (h : st.player.isSome = true) :
    setPitch pitch st
      = { st with playerRate := clamp (1 + pitch / 12) (1/2) 2 } ∧
    (setPitch 0 st).playerRate = 1 ∧
    (setPitch 24 st).playerRate = 2 ∧
    (setPitch (-24) st).playerRate = 1/2 := by
  have hmm : ∀ x : ℚ, max (1/2 : ℚ) (min 2 x) = clamp x (1/2) 2 := by
    intro x
    rw [clamp, max_min_distrib_left, max_eq_right (by norm_num : (1/2 : ℚ) ≤ 2)]
  refine ⟨?_, ?_, ?_, ?_⟩
  · rw [setPitch, if_pos h, hmm]
  · rw [setPitch, if_pos h]
    norm_num [min_def, max_def]
  · rw [setPitch, if_pos h]
    norm_num [min_def, max_def]
  · rw [setPitch, if_pos h]
    norm_num [min_def, max_def]

/-- Witness for C8: on the freshly started call's state (player present),
pitch 24 rewrites only the playback rate, clamped to 2. -/
theorem setPitch_clamps_witness :
    setPitch 24 wGen.st
      = { wGen.st with playerRate := clamp (1 + 24 / 12) (1/2) 2 } ∧
    (setPitch 24 wGen.st).playerRate = 2 := by
  have h := setPitch_clamps 24 wGen.st rfl
  exact ⟨h.1, h.2.2.1⟩

/-- Counterexample to C9: on an instance whose browser components were
never created (no handles exist), `dispose()` throws: the analyser release
`this.analyser.dispose()` is not guarded, so it dereferences null — the
claim that repeated or handle-less dispose never throws because each
release is guarded independently is false. -/
theorem dispose_throws_on_null_handles_cex :
    (initialState false).player = none ∧
    (initialState false).analyser = none ∧
    (dispose (initialState false)).2
      = some (SpeechError.NullDereference "analyser") := by
  exact ⟨rfl, rfl, rfl⟩

/-- Fact: `stop()` does not throw when the synth reference is present. -/
theorem stop_no_throw (st : SessionState) (h : st.synthPresent = true) :
    (stop st).2 = none := by
  by_cases hg : st.isGenerating
  · by_cases hp : st.player.isSome <;> simp [stop, hg, h, hp]
  · by_cases hp : st.player.isSome <;> simp [stop, hg, hp]

/-- C9 (amended): `dispose()` calls `stop()` and releases the playable
node under a guard (the release happens exactly when a player is present),
then disposes the analyser and closes the audio context; only the player
release is guarded, so on a session whose browser components exist
`dispose()` does not throw — and a repeated `dispose()` does not throw
either — but on a session without them it throws a null dereference (see
the counterexample). -/
theorem dispose_guarded_when_present (st : SessionState)
    (h1 : ∃ a, st.analyser = some a) (h2 : st.audioContextPresent = true)
    (h3 : st.synthPresent = true) :
    (dispose st).2 = none ∧
    (dispose (dispose st).1).2 = none ∧
    (dispose st).1.audioContextClosed = true ∧
    (dispose st).1.analyserDisposed = true ∧
    (st.player.isSome = true → (dispose st).1.playerDisposed = true) ∧
    (st.player.isSome = false →
      (dispose st).1.playerDisposed = st.playerDisposed) := by
  obtain ⟨a, ha⟩ := h1
  by_cases hg : st.isGenerating <;> by_cases hp : st.player.isSome <;>
    simp [dispose, stop, hg, hp, ha, h2, h3]

/-- Witness for C9 (amended): on the browser-initialized instance,
`dispose()` and a second `dispose()` both complete without throwing. -/
theorem dispose_guarded_when_present_witness :
    (dispose (initialState true)).2 = none ∧
    (dispose (dispose (initialState true)).1).2 = none := by
  have h := dispose_guarded_when_present (initialState true) ⟨0, rfl⟩ rfl rfl
  exact ⟨h.1, h.2.1⟩

/-- Fact: `dispose()` never writes the `isGenerating` flag. -/
theorem dispose_isGenerating (st : SessionState) :
    (dispose st).1.isGenerating = st.isGenerating := by
  have h1 : (stop st).1.isGenerating = st.isGenerating := (stop_fields st).2.2.1
  unfold dispose
  rcases hs : stop st with ⟨st1, e⟩
  rw [hs] at h1
  simp only at h1
  cases e with
  | some err => simpa using h1
  | none =>
    by_cases hp : st1.player.isSome
    · cases ha : st1.analyser with
      | none => simp [hp, ha, h1]
      | some a =>
        by_cases hac : st1.audioContextPresent <;> simp [hp, ha, hac, h1]
    · cases ha : st1.analyser with
      | none => simp [hp, ha, h1]
      | some a =>
        by_cases hac : st1.audioContextPresent <;> simp [hp, ha, hac, h1]

/-- Fact: every public method call preserves a set `isGenerating` flag. -/
theorem applyApi_isGenerating (op : ApiOp) (st : SessionState)
    (h : st.isGenerating = true) : (applyApi op st).isGenerating = true := by
  cases op with
  | genSpeech env t =>
    cases env with
    | false => simpa [applyApi, generateSpeech] using h
    | true =>
      show ((generateSpeech true t st).1).isGenerating = true
      rw [generateSpeech_generating t st h]
      exact h
  | stopOp =>
    show ((stop st).1).isGenerating = true
    rw [(stop_fields st).2.2.1]
    exact h
  | seekOp time =>
    show (seek time st).isGenerating = true
    by_cases hp : st.player.isSome <;> simp [seek, hp, h]
  | setPitchOp pitch =>
    show (setPitch pitch st).isGenerating = true
    by_cases hp : st.player.isSome <;> simp [setPitch, hp, h]
  | setRateOp rate =>
    show (setPlaybackRate rate st).isGenerating = true
    by_cases hp : st.player.isSome
    · cases hu : st.utterance <;> simp [setPlaybackRate, hp, hu, h]
    · cases hu : st.utterance <;> simp [setPlaybackRate, hp, hu, h]
  | waveformOp => exact h
  | disposeOp =>
    show ((dispose st).1).isGenerating = true
    rw [dispose_isGenerating]
    exact h

/-- Fact: sequences of public method calls preserve a set `isGenerating`
flag. -/
theorem applyApis_isGenerating (ops : List ApiOp) (st : SessionState)
    (h : st.isGenerating = true) : (applyApis ops st).isGenerating = true := by
  induction ops generalizing st with
  | nil => exact h
  | cons op ops ih => exact ih (applyApi op st) (applyApi_isGenerating op st h)

/-- C10: a `generateSpeech` call that rejects on the
components-uninitialized path (synth, audio context or media-stream
destination null) leaves `isGenerating` set to true, installs no utterance
(so no end/error callback exists to reset the flag), and the flag survives
every subsequent sequence of public method calls — hence every later
`generateSpeech` call on the instance rejects with the already-in-progress
error and changes nothing. -/
theorem uninitialized_components_leave_generating (st : SessionState)
    (t : String) (h1 : st.isGenerating = false)
    (h2 : st.synthPresent = false ∨ st.audioContextPresent = false ∨
      st.mediaStreamDestPresent = false) :
    (generateSpeech true t st).2
      = Settlement.rejected SpeechError.ComponentsUninitialized ∧
    (generateSpeech true t st).1.isGenerating = true ∧
    (generateSpeech true t st).1.utterance = st.utterance ∧
    ∀ (ops : List ApiOp) (t2 : String),
      (applyApis ops (generateSpeech true t st).1).isGenerating = true ∧
      generateSpeech true t2 (applyApis ops (generateSpeech true t st).1)
        = (applyApis ops (generateSpeech true t st).1,
           Settlement.rejected SpeechError.AlreadyInProgress) := by
  have hg : generateSpeech true t st
      = ({ st with isGenerating := true, isCancelled := false },
         Settlement.rejected SpeechError.ComponentsUninitialized) := by
    rcases h2 with h | h | h <;> simp [generateSpeech, h1, h]
  refine ⟨by rw [hg], by rw [hg], by rw [hg], fun ops t2 => ?_⟩
  have hgen : ((generateSpeech true t st).1).isGenerating = true := by rw [hg]
  have happ := applyApis_isGenerating ops _ hgen
  exact ⟨happ, generateSpeech_generating t2 _ happ⟩

/-- Witness for C10: on a never-initialized instance forced through the
components check, the call rejects with the components error, and after a
further `stop()` a new call still rejects with already-in-progress. -/
theorem uninitialized_components_witness :
    (generateSpeech true "x" (initialState false)).2
      = Settlement.rejected SpeechError.ComponentsUninitialized ∧
    generateSpeech true "y"
        (applyApis [ApiOp.stopOp]
          (generateSpeech true "x" (initialState false)).1)
      = (applyApis [ApiOp.stopOp]
          (generateSpeech true "x" (initialState false)).1,
         Settlement.rejected SpeechError.AlreadyInProgress) := by
  have h := uninitialized_components_leave_generating (initialState false) "x"
    rfl (Or.inl rfl)
  exact ⟨h.1, (h.2.2.2 [ApiOp.stopOp] "y").2⟩

end WebSpeech
